import Mathlib

/-!
Shallow embedding of the model-selection and forecast-assembly core of the
Time_Series_Analysis_Project repository (src/models/arima_model.py and
src/models/sarima_model.py).

The statsmodels/sklearn/pandas estimation and numeric routines are external
collaborators of the core (spec section 1): they are modelled as oracle
function parameters (an `Engine` for model fitting and forecasting, a
`NumEnv` for numeric library calls).  Machine floats are modelled as exact
rationals; where IEEE special values matter (the MAPE division by zero) an
explicit float model `PFloat` with infinities and NaN is used.
-/

/-- Enumeration of the candidate orders of the non-seasonal grid search:
the cross-product of p in 0..max_p, d in 0..max_d, q in 0..max_q produced by
`itertools.product(p_values, d_values, q_values)` in
`ARIMAForecaster.find_optimal_parameters` (arima_model.py lines 77-81). -/
def enumerateOrders (max_p max_d max_q : ℕ) : List (ℕ × ℕ × ℕ) :=
  (List.range (max_p + 1)).flatMap fun p =>
    (List.range (max_d + 1)).flatMap fun d =>
      (List.range (max_q + 1)).map fun q => (p, d, q)

/-- The best-so-far loop of the grid searches (arima_model.py lines 81-92,
sarima_model.py lines 84-96): each candidate is fitted through the oracle
`fit` (returning `none` when the fit raises, in which case the candidate is
skipped by the bare `except: continue`), and the accumulator keeps the
candidate with the strictly smallest AIC seen so far.  The accumulator value
`none` models the initial state of best_aic at float infinity with
best_params at None: since every rational AIC compares strictly below
infinity, the first successful candidate always replaces it, which is what
`aic < best_aic` does in the source. -/
def gridSearch {C : Type} (fit : C → Option ℚ) : List C → Option (C × ℚ) → Option (C × ℚ)
  | [], best => best
  | c :: rest, best =>
    match fit c with
    | none => gridSearch fit rest best
    | some aic =>
      match best with
      | none => gridSearch fit rest (some (c, aic))
      | some (b, baic) =>
        if aic < baic then gridSearch fit rest (some (c, aic))
        else gridSearch fit rest (some (b, baic))

/-- ARIMAForecaster.find_optimal_parameters (arima_model.py lines 60-94):
grid search over the enumerated orders, returning the tracked best order, or
the fallback (1,1,1) when no candidate ever became the best
(`return best_params if best_params else (1, 1, 1)`).  The argument order
(max_p, max_q, max_d) mirrors the Python signature. -/
def find_optimal_parameters (fit : ℕ × ℕ × ℕ → Option ℚ) (max_p max_q max_d : ℕ) :
    ℕ × ℕ × ℕ :=
  match gridSearch fit (enumerateOrders max_p max_d max_q) none with
  | some (b, _) => b
  | none => (1, 1, 1)

/-- The pruned candidate list of SARIMAForecaster.find_optimal_parameters
(sarima_model.py lines 66-81): the cross-product of the non-seasonal and
seasonal ranges, keeping only combinations with p + d + q <= 4 and
P + D + Q <= 3, each seasonal triple paired with the seasonal period. -/
def sarima_param_combinations (seasonal_period max_p max_q max_P max_Q max_d max_D : ℕ) :
    List ((ℕ × ℕ × ℕ) × (ℕ × ℕ × ℕ × ℕ)) :=
  (List.range (max_p + 1)).flatMap fun p =>
    (List.range (max_d + 1)).flatMap fun d =>
      (List.range (max_q + 1)).flatMap fun q =>
        if p + d + q ≤ 4 then
          (List.range (max_P + 1)).flatMap fun P =>
            (List.range (max_D + 1)).flatMap fun D =>
              (List.range (max_Q + 1)).flatMap fun Q =>
                if P + D + Q ≤ 3 then [((p, d, q), (P, D, Q, seasonal_period))]
                else []
        else []

/-- SARIMAForecaster.find_optimal_parameters (sarima_model.py lines 45-98):
the estimation engine is invoked only on the pruned combination list; on
total failure the source returns
`best_order if best_order else (1,1,1), best_seasonal_order if best_seasonal_order else (1,1,1,seasonal_period)`
and both accumulators are `None` exactly when no candidate ever succeeded. -/
def sarima_find_optimal
    (fit : (ℕ × ℕ × ℕ) × (ℕ × ℕ × ℕ × ℕ) → Option ℚ)
    (seasonal_period max_p max_q max_P max_Q max_d max_D : ℕ) :
    (ℕ × ℕ × ℕ) × (ℕ × ℕ × ℕ × ℕ) :=
  match gridSearch fit
      (sarima_param_combinations seasonal_period max_p max_q max_P max_Q max_d max_D) none with
  | some (b, _) => b
  | none => ((1, 1, 1), (1, 1, 1, seasonal_period))

/-- Model of a Python/numpy double restricted to the values arising in the
MAPE pipeline: an exact rational, the two infinities, or NaN.  Rational
arithmetic is exact (no rounding is modelled); the infinity and NaN
propagation rules are those of IEEE-754, which numpy follows while
the module-level warnings filter set to ignore suppresses the divide
warnings. -/
inductive PFloat where
  | fin (q : ℚ)
  | inf
  | ninf
  | nan
deriving DecidableEq

/-- IEEE negation. -/
def PFloat.neg : PFloat → PFloat
  | .fin a => .fin (-a)
  | .inf => .ninf
  | .ninf => .inf
  | .nan => .nan

/-- IEEE addition (exact on finite values). -/
def PFloat.add : PFloat → PFloat → PFloat
  | .nan, _ => .nan
  | _, .nan => .nan
  | .inf, .ninf => .nan
  | .ninf, .inf => .nan
  | .inf, _ => .inf
  | _, .inf => .inf
  | .ninf, _ => .ninf
  | _, .ninf => .ninf
  | .fin a, .fin b => .fin (a + b)

/-- IEEE subtraction. -/
def PFloat.sub (x y : PFloat) : PFloat := x.add y.neg

/-- IEEE multiplication (exact on finite values). -/
def PFloat.mul : PFloat → PFloat → PFloat
  | .nan, _ => .nan
  | _, .nan => .nan
  | .inf, .inf => .inf
  | .inf, .ninf => .ninf
  | .ninf, .inf => .ninf
  | .ninf, .ninf => .inf
  | .inf, .fin b => if b = 0 then .nan else if b < 0 then .ninf else .inf
  | .fin a, .inf => if a = 0 then .nan else if a < 0 then .ninf else .inf
  | .ninf, .fin b => if b = 0 then .nan else if b < 0 then .inf else .ninf
  | .fin a, .ninf => if a = 0 then .nan else if a < 0 then .inf else .ninf
  | .fin a, .fin b => .fin (a * b)

/-- IEEE division; a finite nonzero value divided by zero gives a signed
infinity, 0/0 gives NaN (exact rationals carry no signed zero). -/
def PFloat.div : PFloat → PFloat → PFloat
  | .nan, _ => .nan
  | _, .nan => .nan
  | .inf, .inf => .nan
  | .inf, .ninf => .nan
  | .ninf, .inf => .nan
  | .ninf, .ninf => .nan
  | .inf, .fin b => if b < 0 then .ninf else .inf
  | .ninf, .fin b => if b < 0 then .inf else .ninf
  | .fin _, .inf => .fin 0
  | .fin _, .ninf => .fin 0
  | .fin a, .fin b =>
    if b = 0 then (if a = 0 then .nan else if a < 0 then .ninf else .inf)
    else .fin (a / b)

/-- IEEE absolute value, as np.abs. -/
def PFloat.abs : PFloat → PFloat
  | .fin a => .fin |a|
  | .inf => .inf
  | .ninf => .inf
  | .nan => .nan

/-- Finiteness test: true exactly on finite values. -/
def PFloat.isFinite : PFloat → Bool
  | .fin _ => true
  | _ => false

/-- np.mean: the sum of the entries divided by their count (NaN on an empty
array, via 0/0). -/
def npMean (l : List PFloat) : PFloat :=
  (l.foldl PFloat.add (.fin 0)).div (.fin (l.length : ℚ))

/-- The MAPE computation shared by ARIMAForecaster.fit_forecast
(arima_model.py lines 131-134) and SARIMAForecaster.fit_forecast
(sarima_model.py lines 136-139):
`np.mean(np.abs((actual - fitted) / actual)) * 100` over the index-aligned
in-sample slices, evaluated elementwise in float arithmetic.  No exception
is raised: a zero actual silently produces an infinite or NaN term. -/
def mape_np (actual fitted : List ℚ) : PFloat :=
  (npMean ((actual.zip fitted).map fun p =>
    PFloat.abs ((PFloat.sub (.fin p.1) (.fin p.2)).div (.fin p.1)))).mul (.fin 100)

/-- The fitted model returned by one estimation call (the statsmodels
results object as far as the core reads it): log-likelihood, AIC, BIC, the
in-sample fitted values and the residuals. -/
structure FitResult where
  aic : ℚ
  bic : ℚ
  llf : ℚ
  fittedvalues : List ℚ
  resid : List ℚ
deriving DecidableEq

/-- The output of fitted_model.get_forecast(steps).predicted_mean together
with the two columns of fitted_model.get_forecast(steps).conf_int():
column 0 is the lower bound, column 1 the upper bound. -/
structure ForecastOut where
  predicted_mean : List ℚ
  ciLower : List ℚ
  ciUpper : List ℚ
deriving DecidableEq

/-- The external estimation engine (spec section 2): `none` models the call
raising (non-convergence, numerical error).  `fitARIMA` is
`ARIMA(series, order).fit()`; `fitSARIMAX` is
`SARIMAX(series, order, seasonal_order).fit(disp=False, maxiter=n)` with the
maxiter argument last; `get_forecast` is
`fitted_model.get_forecast(steps)` together with its conf_int. -/
structure Engine where
  fitARIMA : List ℚ → ℕ × ℕ × ℕ → Option FitResult
  fitSARIMAX : List ℚ → ℕ × ℕ × ℕ → ℕ × ℕ × ℕ × ℕ → ℕ → Option FitResult
  get_forecast : FitResult → ℕ → Option ForecastOut

/-- The numeric library collaborators (numpy/pandas/statsmodels helpers)
used by the core: np.sqrt, pd.infer_freq on a timestamp index (none models
pandas returning None on an irregular index), the pandas Series mean, std
and autocorr, and statsmodels acorr_ljungbox with lags=10 (none models the
call raising; a value is the pair of statistic and p-value arrays). -/
structure NumEnv where
  sqrtQ : ℚ → ℚ
  inferFreq : List ℤ → Option ℤ
  meanQ : List ℚ → ℚ
  stdQ : List ℚ → ℚ
  autocorrQ : List ℚ → ℕ → ℚ
  ljungbox : List ℚ → Option (List ℚ × List ℚ)

/-- A single-column DataFrame as the forecasters consume it: the numeric
column df.iloc[:, 0] and either a timestamp index (timestamps in days, as
integers) or a plain RangeIndex. -/
structure DataFrame where
  values : List ℚ
  tindex : Option (List ℤ)
deriving DecidableEq

/-- One row of the forecast DataFrame built by fit_forecast. -/
structure ForecastRow where
  forecast : ℚ
  lower_bound : ℚ
  upper_bound : ℚ
deriving DecidableEq

/-- The index of the forecast DataFrame: future timestamps (in days) or the
integer fallback range. -/
inductive FIndex where
  | times (l : List ℤ)
  | idx (l : List ℕ)
deriving DecidableEq

/-- Results dictionary stored by ARIMAForecaster.fit_forecast
(arima_model.py lines 149-163); the summary string is not modelled. -/
structure AResults where
  order : ℕ × ℕ × ℕ
  model : FitResult
  findex : FIndex
  forecast : List ForecastRow
  fitted_values : List ℚ
  residuals : List ℚ
  aic : ℚ
  bic : ℚ
  mse : ℚ
  rmse : ℚ
  mae : ℚ
  mape : PFloat
deriving DecidableEq

/-- Results dictionary stored by SARIMAForecaster.fit_forecast
(sarima_model.py lines 156-171); the summary string is not modelled. -/
structure SResults where
  order : ℕ × ℕ × ℕ
  seasonal_order : ℕ × ℕ × ℕ × ℕ
  model : FitResult
  findex : FIndex
  forecast : List ForecastRow
  fitted_values : List ℚ
  residuals : List ℚ
  aic : ℚ
  bic : ℚ
  mse : ℚ
  rmse : ℚ
  mae : ℚ
  mape : PFloat
deriving DecidableEq

/-- sklearn.metrics.mean_squared_error: raises (none) on a length mismatch
or on empty input, otherwise the mean of the squared differences. -/
def mean_squared_error (a f : List ℚ) : Option ℚ :=
  if a.length = f.length ∧ a.length ≠ 0 then
    some ((((a.zip f).map fun p => (p.1 - p.2) ^ 2).sum) / (a.length : ℚ))
  else none

/-- sklearn.metrics.mean_absolute_error: raises (none) on a length mismatch
or on empty input, otherwise the mean of the absolute differences. -/
def mean_absolute_error (a f : List ℚ) : Option ℚ :=
  if a.length = f.length ∧ a.length ≠ 0 then
    some ((((a.zip f).map fun p => |p.1 - p.2|).sum) / (a.length : ℚ))
  else none

/-- Forecast index construction of ARIMAForecaster.fit_forecast
(arima_model.py lines 136-141): with a timestamp index it is
`pd.date_range(start=last_date + pd.Timedelta(days=1), periods=forecast_periods)`,
whose default frequency is one day, so the dates are last+1, ..., last+h
irrespective of the sampling frequency of the input; with a plain index it
is `range(len(df), len(df) + forecast_periods)`.  `df.index[-1]` on an
empty timestamp index raises (none). -/
def arima_forecast_index (df : DataFrame) (forecast_periods : ℕ) : Option FIndex :=
  match df.tindex with
  | some ts =>
    match ts.getLast? with
    | none => none
    | some last_date =>
      some (.times ((List.range forecast_periods).map fun (i : ℕ) => last_date + 1 + (i : ℤ)))
  | none => some (.idx ((List.range forecast_periods).map fun i => df.values.length + i))

/-- Forecast index construction of SARIMAForecaster.fit_forecast
(sarima_model.py lines 141-148): with a timestamp index the frequency is
pd.infer_freq(df.index) with the daily fallback D (one day) when the
inference returns None, and the
dates are `pd.date_range(start=last_date, periods=h+1, freq=freq)[1:]`,
that is last + freq, ..., last + h*freq; with a plain index it is
`range(len(df), len(df) + forecast_periods)`. -/
def sarima_forecast_index (env : NumEnv) (df : DataFrame) (forecast_periods : ℕ) :
    Option FIndex :=
  match df.tindex with
  | some ts =>
    match ts.getLast? with
    | none => none
    | some last_date =>
      let freq := (env.inferFreq ts).getD 1
      some (.times ((List.range forecast_periods).map fun (i : ℕ) => last_date + ((i : ℤ) + 1) * freq))
  | none => some (.idx ((List.range forecast_periods).map fun i => df.values.length + i))

/-- The pd.DataFrame construction of fit_forecast: the three value arrays
must have the length of the index (forecast_periods), otherwise pandas
raises (none); on success the rows pair each mean with its bounds. -/
def build_forecast_df (fo : ForecastOut) (forecast_periods : ℕ) : Option (List ForecastRow) :=
  if fo.predicted_mean.length = forecast_periods ∧ fo.ciLower.length = forecast_periods ∧
      fo.ciUpper.length = forecast_periods then
    some ((fo.predicted_mean.zip (fo.ciLower.zip fo.ciUpper)).map fun p =>
      { forecast := p.1, lower_bound := p.2.1, upper_bound := p.2.2 })
  else none

/-- The body of the try-block of ARIMAForecaster.fit_forecast
(arima_model.py lines 109-165), with every failing library call modelled by
`Option.bind`: fit the model, request the forecast, compute the metrics on
series.iloc[1:] against fitted_values.iloc[1:], build the forecast index and
DataFrame, and assemble the results dictionary.  `none` is the except branch
(print and `return None`).  The confidence_level argument of the source is
not read anywhere in the body. -/
def arima_fit_forecast_run (env : NumEnv) (eng : Engine) (df : DataFrame)
    (order : ℕ × ℕ × ℕ) (forecast_periods : ℕ) : Option AResults :=
  (eng.fitARIMA df.values order).bind fun fitted_model =>
  (eng.get_forecast fitted_model forecast_periods).bind fun forecast_result =>
  (mean_squared_error (df.values.drop 1) (fitted_model.fittedvalues.drop 1)).bind fun mse =>
  (mean_absolute_error (df.values.drop 1) (fitted_model.fittedvalues.drop 1)).bind fun mae =>
  (arima_forecast_index df forecast_periods).bind fun fidx =>
  (build_forecast_df forecast_result forecast_periods).bind fun forecast_df =>
  some { order := order, model := fitted_model, findex := fidx, forecast := forecast_df,
         fitted_values := fitted_model.fittedvalues, residuals := fitted_model.resid,
         aic := fitted_model.aic, bic := fitted_model.bic, mse := mse,
         rmse := env.sqrtQ mse, mae := mae,
         mape := mape_np (df.values.drop 1) (fitted_model.fittedvalues.drop 1) }

/-- ARIMAForecaster.fit_forecast (arima_model.py lines 96-169) with the
object state (the self.results field) passed explicitly: the pair is
(return value, self.results after the call).  On success self.results is
set to the new dictionary and returned; on failure the except branch returns
None and self.results keeps its previous value, since the assignment is the
last statement of the try-block.  confidence_level is accepted but unused in
the source body. -/
def arima_fit_forecast (env : NumEnv) (eng : Engine) (df : DataFrame) (order : ℕ × ℕ × ℕ)
    (forecast_periods confidence_level : ℕ) (st : Option AResults) :
    Option AResults × Option AResults :=
  match arima_fit_forecast_run env eng df order forecast_periods with
  | some results => (some results, some results)
  | none => (none, st)

/-- The body of the try-block of SARIMAForecaster.fit_forecast
(sarima_model.py lines 114-173): as the ARIMA version, but fitting through
SARIMAX with the seasonal order and maxiter=100, and building the forecast
index with frequency inference.  The confidence_level argument of the
source is not read anywhere in the body. -/
def sarima_fit_forecast_run (env : NumEnv) (eng : Engine) (df : DataFrame)
    (order : ℕ × ℕ × ℕ) (seasonal_order : ℕ × ℕ × ℕ × ℕ) (forecast_periods : ℕ) :
    Option SResults :=
  (eng.fitSARIMAX df.values order seasonal_order 100).bind fun fitted_model =>
  (eng.get_forecast fitted_model forecast_periods).bind fun forecast_result =>
  (mean_squared_error (df.values.drop 1) (fitted_model.fittedvalues.drop 1)).bind fun mse =>
  (mean_absolute_error (df.values.drop 1) (fitted_model.fittedvalues.drop 1)).bind fun mae =>
  (sarima_forecast_index env df forecast_periods).bind fun fidx =>
  (build_forecast_df forecast_result forecast_periods).bind fun forecast_df =>
  some { order := order, seasonal_order := seasonal_order, model := fitted_model,
         findex := fidx, forecast := forecast_df,
         fitted_values := fitted_model.fittedvalues, residuals := fitted_model.resid,
         aic := fitted_model.aic, bic := fitted_model.bic, mse := mse,
         rmse := env.sqrtQ mse, mae := mae,
         mape := mape_np (df.values.drop 1) (fitted_model.fittedvalues.drop 1) }

/-- SARIMAForecaster.fit_forecast (sarima_model.py lines 100-177) with the
self.results state passed explicitly, as in the ARIMA version. -/
def sarima_fit_forecast (env : NumEnv) (eng : Engine) (df : DataFrame)
    (order : ℕ × ℕ × ℕ) (seasonal_order : ℕ × ℕ × ℕ × ℕ)
    (forecast_periods confidence_level : ℕ) (st : Option SResults) :
    Option SResults × Option SResults :=
  match sarima_fit_forecast_run env eng df order seasonal_order forecast_periods with
  | some results => (some results, some results)
  | none => (none, st)

/-- The candidate loop of SARIMAForecaster.detect_seasonality
(sarima_model.py lines 36-43): walk the fixed period list; a period within
half the series length whose lagged autocorrelation exceeds 0.3 in absolute
value is returned at once, otherwise the loop continues, and 12 is the
default after the loop. -/
def detectLoop (env : NumEnv) (series : List ℚ) : List ℕ → ℕ
  | [] => 12
  | period :: rest =>
    if period ≤ series.length / 2 then
      if |env.autocorrQ series period| > 3 / 10 then period
      else detectLoop env series rest
    else detectLoop env series rest

/-- SARIMAForecaster.detect_seasonality (sarima_model.py lines 19-43).
The max_period argument and the initial lag-1 autocorrelation of the source
are both unused there. -/
def detect_seasonality (env : NumEnv) (series : List ℚ) (max_period : ℕ) : ℕ :=
  detectLoop env series [4, 12, 24, 52]

/-- ARIMAForecaster.auto_fit_forecast (arima_model.py lines 171-197):
find the optimal order by grid search over the engine AICs (max_d left at
its default 3) and fit-forecast with it. -/
def arima_auto_fit_forecast (env : NumEnv) (eng : Engine) (df : DataFrame)
    (forecast_periods confidence_level max_p max_q : ℕ) (st : Option AResults) :
    Option AResults × Option AResults :=
  let optimal_params :=
    find_optimal_parameters (fun o => (eng.fitARIMA df.values o).map FitResult.aic) max_p max_q 3
  arima_fit_forecast env eng df optimal_params forecast_periods confidence_level st

/-- SARIMAForecaster.auto_fit_forecast (sarima_model.py lines 179-212):
detect the seasonal period, search the pruned grid over the engine AICs
(max_d, max_D left at their defaults 2 and 1, maxiter=50 during the search)
and fit-forecast with the winners. -/
def sarima_auto_fit_forecast (env : NumEnv) (eng : Engine) (df : DataFrame)
    (forecast_periods confidence_level max_p max_q max_P max_Q : ℕ) (st : Option SResults) :
    Option SResults × Option SResults :=
  let seasonal_period := detect_seasonality env df.values 24
  let best :=
    sarima_find_optimal (fun c => (eng.fitSARIMAX df.values c.1 c.2 50).map FitResult.aic)
      seasonal_period max_p max_q max_P max_Q 2 1
  sarima_fit_forecast env eng df best.1 best.2 forecast_periods confidence_level st

/-- Diagnostics dictionary of get_model_diagnostics (arima_model.py lines
199-218); the seasonal variant adds the seasonal order, which no claim
touches, so the shared shape is used with the ARIMA field list. -/
structure Diagnostics where
  aic : ℚ
  bic : ℚ
  order : ℕ × ℕ × ℕ
  log_likelihood : ℚ
  residuals_mean : ℚ
  residuals_std : ℚ
deriving DecidableEq

/-- ARIMAForecaster.get_model_diagnostics (arima_model.py lines 199-218):
None when no results are stored, otherwise the dictionary read from the
stored results. -/
def arima_get_model_diagnostics (env : NumEnv) (st : Option AResults) : Option Diagnostics :=
  match st with
  | none => none
  | some r =>
    some { aic := r.aic, bic := r.bic, order := r.order, log_likelihood := r.model.llf,
           residuals_mean := env.meanQ r.residuals, residuals_std := env.stdQ r.residuals }

/-- Outcome of a Python call that can either return (a value or None) or
raise an uncaught exception. -/
inductive PyOpt (α : Type) where
  | val : Option α → PyOpt α
  | raised : PyOpt α
deriving DecidableEq

/-- Residual analysis dictionary of get_residual_analysis. -/
structure ResidAnalysis where
  residuals_mean : ℚ
  residuals_std : ℚ
  ljung_box_stat : ℚ
  ljung_box_pvalue : ℚ
  residuals_autocorr : ℚ
deriving DecidableEq

/-- ARIMAForecaster.get_residual_analysis (arima_model.py lines 220-243):
None when no results are stored; otherwise acorr_ljungbox is called with no
try/except, so a raising call propagates, as does the indexing lb_stat[0]
on an empty array. -/
def arima_get_residual_analysis (env : NumEnv) (st : Option AResults) : PyOpt ResidAnalysis :=
  match st with
  | none => .val none
  | some r =>
    match env.ljungbox r.residuals with
    | none => .raised
    | some (lb_stat, lb_pvalue) =>
      match lb_stat, lb_pvalue with
      | s0 :: _, p0 :: _ =>
        .val (some { residuals_mean := env.meanQ r.residuals, residuals_std := env.stdQ r.residuals,
                     ljung_box_stat := s0, ljung_box_pvalue := p0,
                     residuals_autocorr := env.autocorrQ r.residuals 1 })
      | _, _ => .raised

/-- SARIMAForecaster.get_residual_analysis (sarima_model.py lines 266-295):
None when no results are stored; the Ljung-Box call is wrapped in
try/except with the sentinel fallback statistic 0 / p-value 1, and an empty
statistic or p-value array also falls back elementwise, so the call never
raises. -/
def sarima_get_residual_analysis (env : NumEnv) (st : Option SResults) : PyOpt ResidAnalysis :=
  match st with
  | none => .val none
  | some r =>
    let sp : ℚ × ℚ :=
      match env.ljungbox r.residuals with
      | none => (0, 1)
      | some (lb_stat, lb_pvalue) => (lb_stat.headD 0, lb_pvalue.headD 1)
    .val (some { residuals_mean := env.meanQ r.residuals, residuals_std := env.stdQ r.residuals,
                 ljung_box_stat := sp.1, ljung_box_pvalue := sp.2,
                 residuals_autocorr := env.autocorrQ r.residuals 1 })

/-- Concrete AIC oracle for exercising the non-seasonal grid search: two
candidates succeed, (1,0,1) with the smaller AIC. -/
def fitEx : ℕ × ℕ × ℕ → Option ℚ := fun c =>
  if c = (0, 1, 0) then some 5 else if c = (1, 0, 1) then some 3 else none

/-- Concrete numeric environment: frequency inference recognises the weekly
index [0, 7, 14]; the lag-12 autocorrelation is strong; the Ljung-Box call
always raises. -/
def envW : NumEnv where
  sqrtQ := fun q => q
  inferFreq := fun ts => if ts = [0, 7, 14] then some 7 else none
  meanQ := fun l => l.sum / (l.length : ℚ)
  stdQ := fun _ => 0
  autocorrQ := fun _ p => if p = 12 then 1 / 2 else 0
  ljungbox := fun _ => none

/-- Concrete estimation engine where every fit succeeds, the fitted values
echo the series, and the forecast intervals are the constant bracket
0 <= 1 <= 2. -/
def engW : Engine where
  fitARIMA := fun s _ => some { aic := 1, bic := 2, llf := 3, fittedvalues := s,
                                resid := List.replicate s.length 0 }
  fitSARIMAX := fun s _ _ _ => some { aic := 1, bic := 2, llf := 3, fittedvalues := s,
                                      resid := List.replicate s.length 0 }
  get_forecast := fun _ k => some { predicted_mean := List.replicate k 1,
                                    ciLower := List.replicate k 0,
                                    ciUpper := List.replicate k 2 }

/-- Concrete engine whose fitted values are offset by one from the series,
so a zero actual meets a nonzero fitted value in the MAPE. -/
def engZ : Engine where
  fitARIMA := fun s _ => some { aic := 1, bic := 2, llf := 3,
                                fittedvalues := s.map fun x => x + 1,
                                resid := List.replicate s.length 0 }
  fitSARIMAX := fun s _ _ _ => some { aic := 1, bic := 2, llf := 3,
                                      fittedvalues := s.map fun x => x + 1,
                                      resid := List.replicate s.length 0 }
  get_forecast := fun _ k => some { predicted_mean := List.replicate k 1,
                                    ciLower := List.replicate k 0,
                                    ciUpper := List.replicate k 2 }

/-- Concrete engine where every estimation call raises. -/
def engFail : Engine where
  fitARIMA := fun _ _ => none
  fitSARIMAX := fun _ _ _ _ => none
  get_forecast := fun _ _ => none

/-- Two-point series with a plain integer index. -/
def dfW : DataFrame := { values := [1, 2], tindex := none }

/-- Three-point series sampled weekly (timestamps 0, 7, 14 days). -/
def dfWeek : DataFrame := { values := [1, 2, 3], tindex := some [0, 7, 14] }

/-- Series whose in-sample slice contains an exact zero. -/
def dfZero : DataFrame := { values := [1, 0, 3], tindex := none }

/-- A stored ARIMA results dictionary from an earlier successful fit. -/
def resW : AResults where
  order := (1, 1, 1)
  model := { aic := 1, bic := 2, llf := 3, fittedvalues := [1, 2], resid := [0, 0] }
  findex := .idx [2, 3]
  forecast := [{ forecast := 1, lower_bound := 0, upper_bound := 2 },
               { forecast := 1, lower_bound := 0, upper_bound := 2 }]
  fitted_values := [1, 2]
  residuals := [0, 0]
  aic := 1
  bic := 2
  mse := 0
  rmse := 0
  mae := 0
  mape := .fin 0

/-- A stored SARIMA results dictionary from an earlier successful fit. -/
def resSW : SResults where
  order := (1, 1, 1)
  seasonal_order := (1, 1, 1, 12)
  model := { aic := 1, bic := 2, llf := 3, fittedvalues := [1, 2], resid := [0, 0] }
  findex := .idx [2, 3]
  forecast := [{ forecast := 1, lower_bound := 0, upper_bound := 2 },
               { forecast := 1, lower_bound := 0, upper_bound := 2 }]
  fitted_values := [1, 2]
  residuals := [0, 0]
  aic := 1
  bic := 2
  mse := 0
  rmse := 0
  mae := 0
  mape := .fin 0

/-- The search loop returns the accumulator unchanged as none exactly when
it started as none and every candidate fit failed. -/
theorem gridSearch_eq_none {C : Type} (fit : C → Option ℚ) :
    ∀ (l : List C) (best : Option (C × ℚ)),
      gridSearch fit l best = none ↔ best = none ∧ ∀ c ∈ l, fit c = none := by
  intro l
  induction l with
  | nil => intro best; simp [gridSearch]
  | cons c rest ih =>
    intro best
    cases hfc : fit c with
    | none =>
      simp only [gridSearch, hfc, ih]
      constructor
      · rintro ⟨hb, hall⟩
        refine ⟨hb, ?_⟩
        rintro x hx
        rcases List.mem_cons.mp hx with rfl | hx2
        · exact hfc
        · exact hall x hx2
      · rintro ⟨hb, hall⟩
        exact ⟨hb, fun x hx => hall x (List.mem_cons_of_mem c hx)⟩
    | some aic =>
      cases best with
      | none =>
        simp only [gridSearch, hfc, ih]
        constructor
        · rintro ⟨h, -⟩; exact absurd h (by simp)
        · rintro ⟨-, hall⟩
          exact absurd (hall c (List.mem_cons_self c rest)) (by simp [hfc])
      | some b =>
        obtain ⟨bc, baic⟩ := b
        simp only [gridSearch, hfc]
        by_cases hlt : aic < baic
        · rw [if_pos hlt, ih]
          constructor
          · rintro ⟨h, -⟩; exact absurd h (by simp)
          · rintro ⟨h, -⟩; exact absurd h (by simp)
        · rw [if_neg hlt, ih]
          constructor
          · rintro ⟨h, -⟩; exact absurd h (by simp)
          · rintro ⟨h, -⟩; exact absurd h (by simp)

/-- Behaviour of the search loop from a present best: either no candidate
beats the incoming best (which is then returned and bounds every successful
AIC from below), or the result is the first candidate of the list attaining
the strict minimum, together with its minimality over the whole list. -/
theorem gridSearch_some_spec {C : Type} (fit : C → Option ℚ) :
    ∀ (l : List C) (b0 : C) (m0 : ℚ),
      ∃ b m, gridSearch fit l (some (b0, m0)) = some (b, m) ∧
        ((b = b0 ∧ m = m0 ∧ ∀ c ∈ l, ∀ a, fit c = some a → m0 ≤ a) ∨
         (∃ l1 l2, l = l1 ++ b :: l2 ∧ fit b = some m ∧ m < m0 ∧
           (∀ c ∈ l1, ∀ a, fit c = some a → m < a) ∧
           (∀ c ∈ l, ∀ a, fit c = some a → m ≤ a))) := by
  intro l
  induction l with
  | nil =>
    intro b0 m0
    exact ⟨b0, m0, by simp [gridSearch], Or.inl ⟨rfl, rfl, by simp⟩⟩
  | cons c rest ih =>
    intro b0 m0
    cases hfc : fit c with
    | none =>
      obtain ⟨b, m, heq, hcase⟩ := ih b0 m0
      refine ⟨b, m, by simp only [gridSearch, hfc]; exact heq, ?_⟩
      rcases hcase with ⟨hb, hm, hge⟩ | ⟨l1, l2, hsplit, hfb, hmlt, hfirst, hall⟩
      · refine Or.inl ⟨hb, hm, ?_⟩
        intro x hx a ha
        rcases List.mem_cons.mp hx with rfl | hx2
        · rw [hfc] at ha; cases ha
        · exact hge x hx2 a ha
      · refine Or.inr ⟨c :: l1, l2, by rw [hsplit]; rfl, hfb, hmlt, ?_, ?_⟩
        · intro x hx a ha
          rcases List.mem_cons.mp hx with rfl | hx2
          · rw [hfc] at ha; cases ha
          · exact hfirst x hx2 a ha
        · intro x hx a ha
          rcases List.mem_cons.mp hx with rfl | hx2
          · rw [hfc] at ha; cases ha
          · exact hall x hx2 a ha
    | some aic =>
      by_cases hlt : aic < m0
      · obtain ⟨b, m, heq, hcase⟩ := ih c aic
        refine ⟨b, m, by simp only [gridSearch, hfc, if_pos hlt]; exact heq, Or.inr ?_⟩
        rcases hcase with ⟨hb, hm, hge⟩ | ⟨l1, l2, hsplit, hfb, hmlt, hfirst, hall⟩
        · subst hb; subst hm
          refine ⟨[], rest, rfl, hfc, hlt, by simp, ?_⟩
          intro x hx a ha
          rcases List.mem_cons.mp hx with rfl | hx2
          · rw [hfc] at ha; cases ha; exact le_refl _
          · exact hge x hx2 a ha
        · refine ⟨c :: l1, l2, by rw [hsplit]; rfl, hfb, lt_trans hmlt hlt, ?_, ?_⟩
          · intro x hx a ha
            rcases List.mem_cons.mp hx with rfl | hx2
            · rw [hfc] at ha; cases ha; exact hmlt
            · exact hfirst x hx2 a ha
          · intro x hx a ha
            rcases List.mem_cons.mp hx with rfl | hx2
            · rw [hfc] at ha; cases ha; exact le_of_lt hmlt
            · exact hall x hx2 a ha
      · obtain ⟨b, m, heq, hcase⟩ := ih b0 m0
        refine ⟨b, m, by simp only [gridSearch, hfc, if_neg hlt]; exact heq, ?_⟩
        rcases hcase with ⟨hb, hm, hge⟩ | ⟨l1, l2, hsplit, hfb, hmlt, hfirst, hall⟩
        · refine Or.inl ⟨hb, hm, ?_⟩
          intro x hx a ha
          rcases List.mem_cons.mp hx with rfl | hx2
          · rw [hfc] at ha; cases ha; exact le_of_not_lt hlt
          · exact hge x hx2 a ha
        · refine Or.inr ⟨c :: l1, l2, by rw [hsplit]; rfl, hfb, hmlt, ?_, ?_⟩
          · intro x hx a ha
            rcases List.mem_cons.mp hx with rfl | hx2
            · rw [hfc] at ha; cases ha; exact lt_of_lt_of_le hmlt (le_of_not_lt hlt)
            · exact hfirst x hx2 a ha
          · intro x hx a ha
            rcases List.mem_cons.mp hx with rfl | hx2
            · rw [hfc] at ha; cases ha
              exact le_of_lt (lt_of_lt_of_le hmlt (le_of_not_lt hlt))
            · exact hall x hx2 a ha

/-- Behaviour of the search loop from the initial empty best: the result is
none, or the first candidate of the list attaining the strict minimum AIC
among the successful candidates. -/
theorem gridSearch_none_spec {C : Type} (fit : C → Option ℚ) :
    ∀ l : List C,
      gridSearch fit l none = none ∨
      ∃ b m l1 l2, gridSearch fit l none = some (b, m) ∧ l = l1 ++ b :: l2 ∧
        fit b = some m ∧
        (∀ c ∈ l1, ∀ a, fit c = some a → m < a) ∧
        (∀ c ∈ l, ∀ a, fit c = some a → m ≤ a) := by
  intro l
  induction l with
  | nil => exact Or.inl (by simp [gridSearch])
  | cons c rest ih =>
    cases hfc : fit c with
    | none =>
      rcases ih with hnone | ⟨b, m, l1, l2, heq, hsplit, hfb, hfirst, hall⟩
      · exact Or.inl (by simp only [gridSearch, hfc]; exact hnone)
      · refine Or.inr ⟨b, m, c :: l1, l2, by simp only [gridSearch, hfc]; exact heq,
          by rw [hsplit]; rfl, hfb, ?_, ?_⟩
        · intro x hx a ha
          rcases List.mem_cons.mp hx with rfl | hx2
          · rw [hfc] at ha; cases ha
          · exact hfirst x hx2 a ha
        · intro x hx a ha
          rcases List.mem_cons.mp hx with rfl | hx2
          · rw [hfc] at ha; cases ha
          · exact hall x hx2 a ha
    | some aic =>
      obtain ⟨b, m, heq, hcase⟩ := gridSearch_some_spec fit rest c aic
      rcases hcase with ⟨hb, hm, hge⟩ | ⟨l1, l2, hsplit, hfb, hmlt, hfirst, hall⟩
      · subst hb; subst hm
        refine Or.inr ⟨b, m, [], rest, by simp only [gridSearch, hfc]; exact heq, rfl,
          hfc, by simp, ?_⟩
        intro x hx a ha
        rcases List.mem_cons.mp hx with rfl | hx2
        · rw [hfc] at ha; cases ha; exact le_refl _
        · exact hge x hx2 a ha
      · refine Or.inr ⟨b, m, c :: l1, l2, by simp only [gridSearch, hfc]; exact heq,
          by rw [hsplit]; rfl, hfb, ?_, ?_⟩
        · intro x hx a ha
          rcases List.mem_cons.mp hx with rfl | hx2
          · rw [hfc] at ha; cases ha; exact hmlt
          · exact hfirst x hx2 a ha
        · intro x hx a ha
          rcases List.mem_cons.mp hx with rfl | hx2
          · rw [hfc] at ha; cases ha; exact le_of_lt hmlt
          · exact hall x hx2 a ha

/-- Membership in the enumerated non-seasonal grid is exactly the bound
constraints on the three components. -/
theorem mem_enumerateOrders {max_p max_d max_q : ℕ} {c : ℕ × ℕ × ℕ} :
    c ∈ enumerateOrders max_p max_d max_q ↔
      c.1 ≤ max_p ∧ c.2.1 ≤ max_d ∧ c.2.2 ≤ max_q := by
  obtain ⟨p, d, q⟩ := c
  simp only [enumerateOrders, List.mem_flatMap, List.mem_map, List.mem_range,
    Nat.lt_succ_iff]
  constructor
  · rintro ⟨x, hx, y, hy, z, hz, heq⟩
    obtain ⟨rfl, rfl, rfl⟩ := Prod.mk.injEq .. ▸ (by
      injection heq with h1 h2
      injection h2 with h2 h3
      exact ⟨h1.symm, h2.symm, h3.symm⟩ : p = x ∧ d = y ∧ q = z)
    exact ⟨hx, hy, hz⟩
  · rintro ⟨hp, hd, hq⟩
    exact ⟨p, hp, d, hd, q, hq, rfl⟩

/-- C1: for every series oracle and bounds max_p, max_d, max_q, the
non-seasonal order search returns the first candidate, in enumeration order
over the full cross-product p in 0..max_p, d in 0..max_d, q in 0..max_q,
that attains the minimum AIC among the candidates whose fit succeeds
(failing candidates are skipped without aborting); it returns the fallback
order (1,1,1) when every candidate fails, and the result is always an
enumerated candidate or that fallback, hence never out of bounds. -/
theorem claim_C1 (fit : ℕ × ℕ × ℕ → Option ℚ) (max_p max_q max_d : ℕ) :
    ((∀ c ∈ enumerateOrders max_p max_d max_q, fit c = none) →
      find_optimal_parameters fit max_p max_q max_d = (1, 1, 1)) ∧
    ((∃ c ∈ enumerateOrders max_p max_d max_q, fit c ≠ none) →
      ∃ m l1 l2,
        enumerateOrders max_p max_d max_q =
          l1 ++ find_optimal_parameters fit max_p max_q max_d :: l2 ∧
        fit (find_optimal_parameters fit max_p max_q max_d) = some m ∧
        (∀ c ∈ l1, ∀ a, fit c = some a → m < a) ∧
        (∀ c ∈ enumerateOrders max_p max_d max_q, ∀ a, fit c = some a → m ≤ a)) ∧
    (find_optimal_parameters fit max_p max_q max_d ∈ enumerateOrders max_p max_d max_q ∨
      find_optimal_parameters fit max_p max_q max_d = (1, 1, 1)) ∧
    (find_optimal_parameters fit max_p max_q max_d ∈ enumerateOrders max_p max_d max_q →
      (find_optimal_parameters fit max_p max_q max_d).1 ≤ max_p ∧
      (find_optimal_parameters fit max_p max_q max_d).2.1 ≤ max_d ∧
      (find_optimal_parameters fit max_p max_q max_d).2.2 ≤ max_q) := by
  rcases gridSearch_none_spec fit (enumerateOrders max_p max_d max_q) with hnone |
    ⟨b, m, l1, l2, heq, hsplit, hfb, hfirst, hall⟩
  · have hres : find_optimal_parameters fit max_p max_q max_d = (1, 1, 1) := by
      simp only [find_optimal_parameters, hnone]
    refine ⟨fun _ => hres, ?_, Or.inr hres, fun hmem => mem_enumerateOrders.mp hmem⟩
    intro hex
    obtain ⟨c, hc, hne⟩ := hex
    have := ((gridSearch_eq_none fit (enumerateOrders max_p max_d max_q) none).mp hnone).2
    exact absurd (this c hc) hne
  · have hres : find_optimal_parameters fit max_p max_q max_d = b := by
      simp only [find_optimal_parameters, heq]
    have hmem : b ∈ enumerateOrders max_p max_d max_q := by
      rw [hsplit]
      exact List.mem_append.mpr (Or.inr (List.mem_cons_self b l2))
    refine ⟨?_, ?_, Or.inl (hres ▸ hmem), fun hm => mem_enumerateOrders.mp hm⟩
    · intro hallnone
      exact absurd (hallnone b hmem) (by simp [hfb])
    · intro _
      exact ⟨m, l1, l2, by rw [hres]; exact hsplit, by rw [hres]; exact hfb, hfirst, hall⟩

/-- Witness for C1 at a concrete oracle: the search result is characterised
as the first minimum-AIC candidate and is an enumerated candidate. -/
theorem claim_C1_witness :
    (∃ m l1 l2,
        enumerateOrders 1 1 1 = l1 ++ find_optimal_parameters fitEx 1 1 1 :: l2 ∧
        fitEx (find_optimal_parameters fitEx 1 1 1) = some m ∧
        (∀ c ∈ l1, ∀ a, fitEx c = some a → m < a) ∧
        (∀ c ∈ enumerateOrders 1 1 1, ∀ a, fitEx c = some a → m ≤ a)) ∧
    (find_optimal_parameters fitEx 1 1 1 ∈ enumerateOrders 1 1 1 ∨
      find_optimal_parameters fitEx 1 1 1 = (1, 1, 1)) :=
  ⟨(claim_C1 fitEx 1 1 1).2.1 ⟨(0, 1, 0), by decide, by decide⟩,
   (claim_C1 fitEx 1 1 1).2.2.1⟩

/-- C4: the seasonal order search invokes the estimation engine only on the
pruned combination list, whose members all satisfy p + d + q <= 4 and
P + D + Q <= 3; and when every attempted candidate fails it returns
order (1,1,1) with seasonal order (1,1,1,seasonal_period). -/
theorem claim_C4 (fit : (ℕ × ℕ × ℕ) × (ℕ × ℕ × ℕ × ℕ) → Option ℚ)
    (seasonal_period max_p max_q max_P max_Q max_d max_D : ℕ) :
    (∀ cand ∈ sarima_param_combinations seasonal_period max_p max_q max_P max_Q max_d max_D,
        cand.1.1 + cand.1.2.1 + cand.1.2.2 ≤ 4 ∧
        cand.2.1 + cand.2.2.1 + cand.2.2.2.1 ≤ 3) ∧
    ((∀ cand ∈ sarima_param_combinations seasonal_period max_p max_q max_P max_Q max_d max_D,
        fit cand = none) →
      sarima_find_optimal fit seasonal_period max_p max_q max_P max_Q max_d max_D =
        ((1, 1, 1), (1, 1, 1, seasonal_period))) := by
  constructor
  · intro cand hmem
    simp only [sarima_param_combinations, List.mem_flatMap, List.mem_range] at hmem
    obtain ⟨p, -, d, -, q, -, hmem⟩ := hmem
    by_cases h4 : p + d + q ≤ 4
    · rw [if_pos h4] at hmem
      simp only [List.mem_flatMap, List.mem_range] at hmem
      obtain ⟨P, -, D, -, Q, -, hmem⟩ := hmem
      by_cases h3 : P + D + Q ≤ 3
      · rw [if_pos h3] at hmem
        rcases List.mem_singleton.mp hmem with rfl
        exact ⟨h4, h3⟩
      · rw [if_neg h3] at hmem
        cases hmem
    · rw [if_neg h4] at hmem
      cases hmem
  · intro hall
    have hnone :
        gridSearch fit
          (sarima_param_combinations seasonal_period max_p max_q max_P max_Q max_d max_D)
          none = none :=
      (gridSearch_eq_none fit _ none).mpr ⟨rfl, hall⟩
    simp only [sarima_find_optimal, hnone]

/-- Witness for C4: with an oracle on which every fit fails, the seasonal
search at the default bounds returns the documented fallback pair. -/
theorem claim_C4_witness :
    sarima_find_optimal (fun _ => none) 12 3 3 2 2 2 1 = ((1, 1, 1), (1, 1, 1, 12)) :=
  (claim_C4 (fun _ => none) 12 3 3 2 2 2 1).2 (fun _ _ => rfl)

/-- The candidate loop of detect_seasonality returns 12 when no listed
period qualifies, and otherwise the first qualifying period of the list. -/
theorem detectLoop_spec (env : NumEnv) (series : List ℚ) :
    ∀ l : List ℕ,
      ((∀ p ∈ l, ¬(p ≤ series.length / 2 ∧ |env.autocorrQ series p| > 3 / 10)) →
        detectLoop env series l = 12) ∧
      ((∃ p ∈ l, p ≤ series.length / 2 ∧ |env.autocorrQ series p| > 3 / 10) →
        ∃ l1 l2, l = l1 ++ detectLoop env series l :: l2 ∧
          (detectLoop env series l ≤ series.length / 2 ∧
            |env.autocorrQ series (detectLoop env series l)| > 3 / 10) ∧
          ∀ p ∈ l1, ¬(p ≤ series.length / 2 ∧ |env.autocorrQ series p| > 3 / 10)) := by
  intro l
  induction l with
  | nil => exact ⟨fun _ => rfl, by rintro ⟨p, hp, -⟩; simp at hp⟩
  | cons period rest ih =>
    by_cases h1 : period ≤ series.length / 2
    · by_cases h2 : |env.autocorrQ series period| > 3 / 10
      · have hd : detectLoop env series (period :: rest) = period := by
          simp [detectLoop, h1, h2]
        constructor
        · intro hall
          exact absurd ⟨h1, h2⟩ (hall period (List.mem_cons_self period rest))
        · intro _
          exact ⟨[], rest, by simp [hd], by rw [hd]; exact ⟨h1, h2⟩, by simp⟩
      · have hd : detectLoop env series (period :: rest) = detectLoop env series rest := by
          simp [detectLoop, h1, h2]
        constructor
        · intro hall
          rw [hd]
          exact ih.1 (fun p hp => hall p (List.mem_cons_of_mem period hp))
        · rintro ⟨p, hp, hq⟩
          rcases List.mem_cons.mp hp with rfl | hp2
          · exact absurd hq.2 h2
          · obtain ⟨l1, l2, hsplit, hqual, hfirst⟩ := ih.2 ⟨p, hp2, hq⟩
            refine ⟨period :: l1, l2, ?_, ?_, ?_⟩
            · rw [hd, List.cons_append, ← hsplit]
            · rw [hd]; exact hqual
            · intro x hx
              rcases List.mem_cons.mp hx with rfl | hx2
              · rintro ⟨-, hc⟩; exact h2 hc
              · exact hfirst x hx2
    · have hd : detectLoop env series (period :: rest) = detectLoop env series rest := by
        simp [detectLoop, h1]
      constructor
      · intro hall
        rw [hd]
        exact ih.1 (fun p hp => hall p (List.mem_cons_of_mem period hp))
      · rintro ⟨p, hp, hq⟩
        rcases List.mem_cons.mp hp with rfl | hp2
        · exact absurd hq.1 h1
        · obtain ⟨l1, l2, hsplit, hqual, hfirst⟩ := ih.2 ⟨p, hp2, hq⟩
          refine ⟨period :: l1, l2, ?_, ?_, ?_⟩
          · rw [hd, List.cons_append, ← hsplit]
          · rw [hd]; exact hqual
          · intro x hx
            rcases List.mem_cons.mp hx with rfl | hx2
            · rintro ⟨hc, -⟩; exact h1 hc
            · exact hfirst x hx2

/-- C3: detect_seasonality checks the candidate periods 4, 12, 24, 52 in
that order, considering only those p with p at most half the series length
(integer division, equivalent to the real bound for integer p), and returns
the first candidate whose absolute autocorrelation at lag p exceeds 0.3;
when no candidate qualifies it returns 12. -/
theorem claim_C3 (env : NumEnv) (series : List ℚ) (max_period : ℕ) :
    ((∀ p ∈ [4, 12, 24, 52],
        ¬(p ≤ series.length / 2 ∧ |env.autocorrQ series p| > 3 / 10)) →
      detect_seasonality env series max_period = 12) ∧
    ((∃ p ∈ [4, 12, 24, 52],
        p ≤ series.length / 2 ∧ |env.autocorrQ series p| > 3 / 10) →
      ∃ l1 l2,
        [4, 12, 24, 52] = l1 ++ detect_seasonality env series max_period :: l2 ∧
        (detect_seasonality env series max_period ≤ series.length / 2 ∧
          |env.autocorrQ series (detect_seasonality env series max_period)| > 3 / 10) ∧
        ∀ p ∈ l1, ¬(p ≤ series.length / 2 ∧ |env.autocorrQ series p| > 3 / 10)) :=
  detectLoop_spec env series [4, 12, 24, 52]

/-- Witness for C3 at a concrete environment: on a 24-point series whose
lag-12 autocorrelation is 1/2, the detector returns the first qualifying
candidate, with candidate 4 rejected before it. -/
theorem claim_C3_witness :
    ∃ l1 l2,
      [4, 12, 24, 52] = l1 ++ detect_seasonality envW (List.replicate 24 1) 24 :: l2 ∧
      (detect_seasonality envW (List.replicate 24 1) 24 ≤
          (List.replicate 24 (1 : ℚ)).length / 2 ∧
        |envW.autocorrQ (List.replicate 24 1)
            (detect_seasonality envW (List.replicate 24 1) 24)| > 3 / 10) ∧
      ∀ p ∈ l1,
        ¬(p ≤ (List.replicate 24 (1 : ℚ)).length / 2 ∧
          |envW.autocorrQ (List.replicate 24 1) p| > 3 / 10) :=
  (claim_C3 envW (List.replicate 24 1) 24).2
    ⟨12, by decide, by decide, by norm_num [envW, abs_of_pos]⟩

/-- The first component of the stateful ARIMA fit_forecast is the try-block
result, whatever state was stored before the call. -/
theorem arima_fit_forecast_fst (env : NumEnv) (eng : Engine) (df : DataFrame)
    (order : ℕ × ℕ × ℕ) (fp cl : ℕ) (st : Option AResults) :
    (arima_fit_forecast env eng df order fp cl st).1 =
      arima_fit_forecast_run env eng df order fp := by
  unfold arima_fit_forecast
  cases arima_fit_forecast_run env eng df order fp <;> rfl

/-- The first component of the stateful SARIMA fit_forecast is the
try-block result, whatever state was stored before the call. -/
theorem sarima_fit_forecast_fst (env : NumEnv) (eng : Engine) (df : DataFrame)
    (order : ℕ × ℕ × ℕ) (seasonal_order : ℕ × ℕ × ℕ × ℕ) (fp cl : ℕ)
    (sst : Option SResults) :
    (sarima_fit_forecast env eng df order seasonal_order fp cl sst).1 =
      sarima_fit_forecast_run env eng df order seasonal_order fp := by
  unfold sarima_fit_forecast
  cases sarima_fit_forecast_run env eng df order seasonal_order fp <;> rfl

/-- Elements of a zip of a mean list with its bracketing bound lists
satisfy the bound ordering componentwise. -/
theorem zip_bounds :
    ∀ (m lo up : List ℚ), List.Forall₂ (· ≤ ·) lo m → List.Forall₂ (· ≤ ·) m up →
      ∀ x ∈ m.zip (lo.zip up), x.2.1 ≤ x.1 ∧ x.1 ≤ x.2.2 := by
  intro m
  induction m with
  | nil => intro lo up _ _ x hx; simp at hx
  | cons a mt ih =>
    intro lo up hlo hup x hx
    cases hlo with
    | cons hba htlo =>
      cases hup with
      | cons hac htup =>
        rcases List.mem_cons.mp (by simpa [List.zip_cons_cons] using hx) with rfl | hx2
        · exact ⟨hba, hac⟩
        · exact ih _ _ htlo htup x hx2

/-- Two constant lists of the same length are pointwise related when their
constants are. -/
theorem forall₂_replicate {α : Type} {r : α → α → Prop} {a b : α} (hab : r a b) :
    ∀ n, List.Forall₂ r (List.replicate n a) (List.replicate n b) := by
  intro n
  induction n with
  | zero => exact .nil
  | succ k ih => exact .cons hab ih

/-- A successfully built forecast DataFrame has exactly the requested number
of rows, and inherits the bound ordering of the engine output. -/
theorem build_forecast_df_spec (fo : ForecastOut) (fp : ℕ) (rows : List ForecastRow)
    (hrows : build_forecast_df fo fp = some rows)
    (hlo : List.Forall₂ (· ≤ ·) fo.ciLower fo.predicted_mean)
    (hup : List.Forall₂ (· ≤ ·) fo.predicted_mean fo.ciUpper) :
    rows.length = fp ∧
    ∀ row ∈ rows, row.lower_bound ≤ row.forecast ∧ row.forecast ≤ row.upper_bound := by
  unfold build_forecast_df at hrows
  by_cases hc : fo.predicted_mean.length = fp ∧ fo.ciLower.length = fp ∧
      fo.ciUpper.length = fp
  · rw [if_pos hc] at hrows
    obtain rfl := Option.some.inj hrows
    constructor
    · simp [List.length_zip, hc.1, hc.2.1, hc.2.2]
    · intro row hrow
      obtain ⟨x, hx, rfl⟩ := List.mem_map.mp hrow
      exact zip_bounds fo.predicted_mean fo.ciLower fo.ciUpper hlo hup x hx
  · rw [if_neg hc] at hrows
    cases hrows

/-- C2: whenever a fit_forecast call succeeds with horizon
forecast_periods, the returned forecast record has exactly that many rows,
and each row satisfies lower_bound <= forecast <= upper_bound, given that
the estimation engine brackets its mean path with its interval bounds; this
holds for the ARIMA and the SARIMA assembler alike. -/
theorem claim_C2 (env : NumEnv) (eng : Engine) (df : DataFrame)
    (order : ℕ × ℕ × ℕ) (seasonal_order : ℕ × ℕ × ℕ × ℕ)
    (forecast_periods confidence_level : ℕ)
    (st : Option AResults) (sst : Option SResults)
    (hbr : ∀ fm k fo, eng.get_forecast fm k = some fo →
      List.Forall₂ (· ≤ ·) fo.ciLower fo.predicted_mean ∧
      List.Forall₂ (· ≤ ·) fo.predicted_mean fo.ciUpper) :
    (∀ r, (arima_fit_forecast env eng df order forecast_periods confidence_level st).1 =
        some r →
      r.forecast.length = forecast_periods ∧
      ∀ row ∈ r.forecast,
        row.lower_bound ≤ row.forecast ∧ row.forecast ≤ row.upper_bound) ∧
    (∀ r, (sarima_fit_forecast env eng df order seasonal_order forecast_periods
        confidence_level sst).1 = some r →
      r.forecast.length = forecast_periods ∧
      ∀ row ∈ r.forecast,
        row.lower_bound ≤ row.forecast ∧ row.forecast ≤ row.upper_bound) := by
  constructor
  · intro r hr
    rw [arima_fit_forecast_fst] at hr
    simp only [arima_fit_forecast_run, Option.bind_eq_some] at hr
    obtain ⟨fm, hfm, fo, hfo, mse, hmse, mae, hmae, fidx, hfidx, rows, hrows, hsome⟩ := hr
    obtain rfl := Option.some.inj hsome
    exact build_forecast_df_spec fo forecast_periods rows hrows
      (hbr fm forecast_periods fo hfo).1 (hbr fm forecast_periods fo hfo).2
  · intro r hr
    rw [sarima_fit_forecast_fst] at hr
    simp only [sarima_fit_forecast_run, Option.bind_eq_some] at hr
    obtain ⟨fm, hfm, fo, hfo, mse, hmse, mae, hmae, fidx, hfidx, rows, hrows, hsome⟩ := hr
    obtain rfl := Option.some.inj hsome
    exact build_forecast_df_spec fo forecast_periods rows hrows
      (hbr fm forecast_periods fo hfo).1 (hbr fm forecast_periods fo hfo).2

/-- Witness for C2: a concrete successful ARIMA fit_forecast call at
horizon 2 whose record has 2 ordered rows. -/
theorem claim_C2_witness :
    ∃ r, (arima_fit_forecast envW engW dfW (1, 1, 1) 2 95 none).1 = some r ∧
      r.forecast.length = 2 ∧
      ∀ row ∈ r.forecast,
        row.lower_bound ≤ row.forecast ∧ row.forecast ≤ row.upper_bound := by
  have hbr : ∀ fm k fo, engW.get_forecast fm k = some fo →
      List.Forall₂ (· ≤ ·) fo.ciLower fo.predicted_mean ∧
      List.Forall₂ (· ≤ ·) fo.predicted_mean fo.ciUpper := by
    intro fm k fo hfo
    obtain rfl := Option.some.inj hfo
    exact ⟨forall₂_replicate (by norm_num) k, forall₂_replicate (by norm_num) k⟩
  obtain ⟨r, hr⟩ := Option.isSome_iff_exists.mp
    (show ((arima_fit_forecast envW engW dfW (1, 1, 1) 2 95 none).1).isSome = true from rfl)
  exact ⟨r, hr, (claim_C2 envW engW dfW (1, 1, 1) (0, 0, 0, 12) 2 95 none none hbr).1 r hr⟩

/-- C5 (code bug): the confidence_level accepted by both fit_forecast
entry points is never forwarded to the estimation engine or to the interval
computation — conf_int() is called with its default — so any two calls that
differ only in confidence_level return identical results and leave
identical state.  The claim that the level is threaded through (so that
different levels give different interval widths) is false of the code. -/
theorem claim_C5_bug (env : NumEnv) (eng : Engine) (df : DataFrame)
    (order : ℕ × ℕ × ℕ) (seasonal_order : ℕ × ℕ × ℕ × ℕ)
    (forecast_periods cl1 cl2 : ℕ) (st : Option AResults) (sst : Option SResults) :
    arima_fit_forecast env eng df order forecast_periods cl1 st =
      arima_fit_forecast env eng df order forecast_periods cl2 st ∧
    sarima_fit_forecast env eng df order seasonal_order forecast_periods cl1 sst =
      sarima_fit_forecast env eng df order seasonal_order forecast_periods cl2 sst :=
  ⟨rfl, rfl⟩

/-- A successful ARIMA try-block stores exactly the index built by
arima_forecast_index. -/
theorem arima_run_findex (env : NumEnv) (eng : Engine) (df : DataFrame)
    (order : ℕ × ℕ × ℕ) (fp : ℕ) (r : AResults)
    (hr : arima_fit_forecast_run env eng df order fp = some r) :
    arima_forecast_index df fp = some r.findex := by
  simp only [arima_fit_forecast_run, Option.bind_eq_some] at hr
  obtain ⟨fm, -, fo, -, mse, -, mae, -, fidx, hfidx, rows, -, hsome⟩ := hr
  obtain rfl := Option.some.inj hsome
  exact hfidx

/-- A successful SARIMA try-block stores exactly the index built by
sarima_forecast_index. -/
theorem sarima_run_findex (env : NumEnv) (eng : Engine) (df : DataFrame)
    (order : ℕ × ℕ × ℕ) (seasonal_order : ℕ × ℕ × ℕ × ℕ) (fp : ℕ) (r : SResults)
    (hr : sarima_fit_forecast_run env eng df order seasonal_order fp = some r) :
    sarima_forecast_index env df fp = some r.findex := by
  simp only [sarima_fit_forecast_run, Option.bind_eq_some] at hr
  obtain ⟨fm, -, fo, -, mse, -, mae, -, fidx, hfidx, rows, -, hsome⟩ := hr
  obtain rfl := Option.some.inj hsome
  exact hfidx

/-- Reading a mapped range list at an in-range position. -/
theorem map_range_getD (f : ℕ → ℤ) (n i : ℕ) (hi : i < n) :
    ((List.range n).map f).getD i 0 = f i := by
  rw [List.getD_eq_getElem?_getD, List.getElem?_map, List.getElem?_range hi]
  rfl

/-- Counterexample to C6 as stated: on the weekly series with timestamps
0, 7, 14 — whose inferred frequency is 7 days — the ARIMA assembler builds
forecast timestamps 15, 16 (one day apart, starting the day after the last
observation), not the claimed extrapolation 21, 28 at one sampling interval
apart. -/
theorem claim_C6_counterex :
    (arima_fit_forecast envW engW dfWeek (1, 1, 1) 2 95 none).1.map AResults.findex =
      some (FIndex.times [15, 16]) ∧
    envW.inferFreq [0, 7, 14] = some 7 ∧
    FIndex.times [15, 16] ≠ FIndex.times [21, 28] :=
  ⟨rfl, rfl, by decide⟩

/-- C6 (amended): on a successful call with a timestamped series, the ARIMA
assembler always builds daily forecast timestamps starting one day after
the last observation, ignoring the inferred frequency of the series; the SARIMA
assembler extrapolates the inferred frequency d from the last observation
(h steps, consecutive timestamps d apart, strictly increasing when d > 0)
and falls back to daily spacing — not to the integer index — when no
frequency can be inferred; both assemblers use the integer index sequence
len(series), ..., len(series)+h-1 exactly when the index is not
timestamped. -/
theorem claim_C6_amended (env : NumEnv) (eng : Engine) (df : DataFrame)
    (order : ℕ × ℕ × ℕ) (seasonal_order : ℕ × ℕ × ℕ × ℕ)
    (forecast_periods confidence_level : ℕ)
    (st : Option AResults) (sst : Option SResults) :
    (∀ ts last r, df.tindex = some ts → ts.getLast? = some last →
      (arima_fit_forecast env eng df order forecast_periods confidence_level st).1 =
        some r →
      r.findex = .times ((List.range forecast_periods).map fun (i : ℕ) => last + 1 + (i : ℤ))) ∧
    (∀ ts last d r, df.tindex = some ts → ts.getLast? = some last →
      env.inferFreq ts = some d →
      (sarima_fit_forecast env eng df order seasonal_order forecast_periods
          confidence_level sst).1 = some r →
      r.findex =
        .times ((List.range forecast_periods).map fun (i : ℕ) => last + ((i : ℤ) + 1) * d) ∧
      (∀ i, i + 1 < forecast_periods →
        ((List.range forecast_periods).map fun (j : ℕ) => last + ((j : ℤ) + 1) * d).getD (i + 1) 0 =
          ((List.range forecast_periods).map fun (j : ℕ) => last + ((j : ℤ) + 1) * d).getD i 0 + d) ∧
      (0 < d → ∀ i, i + 1 < forecast_periods →
        ((List.range forecast_periods).map fun (j : ℕ) => last + ((j : ℤ) + 1) * d).getD i 0 <
          ((List.range forecast_periods).map fun (j : ℕ) => last + ((j : ℤ) + 1) * d).getD (i + 1) 0)) ∧
    (∀ ts last r, df.tindex = some ts → ts.getLast? = some last →
      env.inferFreq ts = none →
      (sarima_fit_forecast env eng df order seasonal_order forecast_periods
          confidence_level sst).1 = some r →
      r.findex = .times ((List.range forecast_periods).map fun (i : ℕ) => last + ((i : ℤ) + 1))) ∧
    (df.tindex = none →
      (∀ r, (arima_fit_forecast env eng df order forecast_periods confidence_level st).1 =
          some r →
        r.findex = .idx ((List.range forecast_periods).map fun i => df.values.length + i)) ∧
      (∀ r, (sarima_fit_forecast env eng df order seasonal_order forecast_periods
          confidence_level sst).1 = some r →
        r.findex = .idx ((List.range forecast_periods).map fun i => df.values.length + i))) := by
  refine ⟨?_, ?_, ?_, ?_⟩
  · intro ts last r hts hlast hr
    rw [arima_fit_forecast_fst] at hr
    have hf := arima_run_findex env eng df order forecast_periods r hr
    simp only [arima_forecast_index, hts, hlast] at hf
    exact (Option.some.inj hf).symm
  · intro ts last d r hts hlast hfreq hr
    rw [sarima_fit_forecast_fst] at hr
    have hf := sarima_run_findex env eng df order seasonal_order forecast_periods r hr
    simp only [sarima_forecast_index, hts, hlast, hfreq, Option.getD_some] at hf
    refine ⟨(Option.some.inj hf).symm, ?_, ?_⟩
    · intro i hi
      rw [map_range_getD _ _ _ hi, map_range_getD _ _ _ (Nat.lt_of_succ_lt hi)]
      push_cast
      ring
    · intro hd i hi
      rw [map_range_getD _ _ _ hi, map_range_getD _ _ _ (Nat.lt_of_succ_lt hi)]
      push_cast
      nlinarith
  · intro ts last r hts hlast hfreq hr
    rw [sarima_fit_forecast_fst] at hr
    have hf := sarima_run_findex env eng df order seasonal_order forecast_periods r hr
    simp only [sarima_forecast_index, hts, hlast, hfreq, Option.getD_none, mul_one] at hf
    exact (Option.some.inj hf).symm
  · intro hts
    constructor
    · intro r hr
      rw [arima_fit_forecast_fst] at hr
      have hf := arima_run_findex env eng df order forecast_periods r hr
      simp only [arima_forecast_index, hts] at hf
      exact (Option.some.inj hf).symm
    · intro r hr
      rw [sarima_fit_forecast_fst] at hr
      have hf := sarima_run_findex env eng df order seasonal_order forecast_periods r hr
      simp only [sarima_forecast_index, hts] at hf
      exact (Option.some.inj hf).symm

/-- Witness for the amended C6: on the weekly series the SARIMA assembler
extrapolates the inferred 7-day frequency from the last timestamp 14. -/
theorem claim_C6_witness :
    ∃ r, (sarima_fit_forecast envW engW dfWeek (1, 1, 1) (0, 0, 0, 12) 2 95 none).1 =
        some r ∧
      r.findex = FIndex.times ((List.range 2).map fun (i : ℕ) => (14 : ℤ) + ((i : ℤ) + 1) * 7) := by
  obtain ⟨r, hr⟩ := Option.isSome_iff_exists.mp
    (show ((sarima_fit_forecast envW engW dfWeek (1, 1, 1) (0, 0, 0, 12) 2 95 none).1).isSome =
      true from rfl)
  exact ⟨r, hr,
    ((claim_C6_amended envW engW dfWeek (1, 1, 1) (0, 0, 0, 12) 2 95 none none).2.1
      [0, 7, 14] 14 7 r rfl rfl rfl hr).1⟩

/-- Adding anything to a non-finite float stays non-finite. -/
theorem PFloat.add_not_finite_left (x y : PFloat) (hx : x.isFinite = false) :
    (x.add y).isFinite = false := by
  cases x <;> cases y <;> simp_all [PFloat.add, PFloat.isFinite]

/-- Adding a non-finite float to anything stays non-finite. -/
theorem PFloat.add_not_finite_right (x y : PFloat) (hy : y.isFinite = false) :
    (x.add y).isFinite = false := by
  cases x <;> cases y <;> simp_all [PFloat.add, PFloat.isFinite]

/-- A fold of additions over a list with a non-finite entry (or from a
non-finite accumulator) is non-finite. -/
theorem foldl_add_not_finite :
    ∀ (l : List PFloat) (acc : PFloat),
      (acc.isFinite = false ∨ ∃ x ∈ l, x.isFinite = false) →
      (l.foldl PFloat.add acc).isFinite = false := by
  intro l
  induction l with
  | nil =>
    intro acc h
    rcases h with h | ⟨x, hx, -⟩
    · simpa using h
    · simp at hx
  | cons y rest ih =>
    intro acc h
    simp only [List.foldl_cons]
    apply ih
    rcases h with h | ⟨x, hx, hxf⟩
    · exact Or.inl (PFloat.add_not_finite_left acc y h)
    · rcases List.mem_cons.mp hx with rfl | hx2
      · exact Or.inl (PFloat.add_not_finite_right acc x hxf)
      · exact Or.inr ⟨x, hx2, hxf⟩

/-- Dividing a non-finite float by anything stays non-finite. -/
theorem PFloat.div_not_finite (x y : PFloat) (hx : x.isFinite = false) :
    (x.div y).isFinite = false := by
  cases x with
  | fin a => simp [PFloat.isFinite] at hx
  | nan => cases y <;> rfl
  | inf =>
    cases y with
    | fin b =>
      by_cases hb : b < 0
      · simp [PFloat.div, hb, PFloat.isFinite]
      · simp [PFloat.div, hb, PFloat.isFinite]
    | inf => rfl
    | ninf => rfl
    | nan => rfl
  | ninf =>
    cases y with
    | fin b =>
      by_cases hb : b < 0
      · simp [PFloat.div, hb, PFloat.isFinite]
      · simp [PFloat.div, hb, PFloat.isFinite]
    | inf => rfl
    | ninf => rfl
    | nan => rfl

/-- Multiplying a non-finite float by anything stays non-finite. -/
theorem PFloat.mul_not_finite (x y : PFloat) (hx : x.isFinite = false) :
    (x.mul y).isFinite = false := by
  cases x with
  | fin a => simp [PFloat.isFinite] at hx
  | nan => cases y <;> rfl
  | inf =>
    cases y with
    | fin b =>
      rcases eq_or_ne b 0 with rfl | hb0
      · simp [PFloat.mul, PFloat.isFinite]
      · by_cases hb : b < 0
        · simp [PFloat.mul, hb0, hb, PFloat.isFinite]
        · simp [PFloat.mul, hb0, hb, PFloat.isFinite]
    | inf => rfl
    | ninf => rfl
    | nan => rfl
  | ninf =>
    cases y with
    | fin b =>
      rcases eq_or_ne b 0 with rfl | hb0
      · simp [PFloat.mul, PFloat.isFinite]
      · by_cases hb : b < 0
        · simp [PFloat.mul, hb0, hb, PFloat.isFinite]
        · simp [PFloat.mul, hb0, hb, PFloat.isFinite]
    | inf => rfl
    | ninf => rfl
    | nan => rfl

/-- A member of the left list of a zip of equal-length lists is paired with
some element of the right list. -/
theorem mem_zip_of_mem_left {α β : Type} {a : α} :
    ∀ {l1 : List α} {l2 : List β}, l1.length = l2.length → a ∈ l1 →
      ∃ b, (a, b) ∈ l1.zip l2 := by
  intro l1
  induction l1 with
  | nil => intro l2 _ h; simp at h
  | cons x rest ih =>
    intro l2 hlen ha
    cases l2 with
    | nil => simp at hlen
    | cons y rest2 =>
      rcases List.mem_cons.mp ha with rfl | ha2
      · exact ⟨y, by simp [List.zip_cons_cons]⟩
      · obtain ⟨b, hb⟩ := ih (by simpa using hlen) ha2
        exact ⟨b, by simp only [List.zip_cons_cons]; exact List.mem_cons_of_mem _ hb⟩

/-- C7 (amended): when the in-sample actual slice contains an exact zero
(and is aligned with the fitted slice), the MAPE computed by fit_forecast is
a non-finite float — positive infinity when the matching fitted value
differs from the actual, NaN when the term is 0/0 — and is never coerced to
a finite number; no exception is raised, since the whole computation is a
total elementwise float pipeline. -/
theorem claim_C7_amended (actual fitted : List ℚ)
    (hlen : actual.length = fitted.length) (hz : (0 : ℚ) ∈ actual) :
    (mape_np actual fitted).isFinite = false := by
  obtain ⟨f, hf⟩ := mem_zip_of_mem_left hlen hz
  apply PFloat.mul_not_finite
  apply PFloat.div_not_finite
  apply foldl_add_not_finite
  refine Or.inr ⟨PFloat.abs ((PFloat.sub (.fin 0) (.fin f)).div (.fin 0)), ?_, ?_⟩
  · exact List.mem_map_of_mem _ hf
  · have h1 : PFloat.sub (.fin 0) (.fin f) = .fin (-f) := by
      simp [PFloat.sub, PFloat.add, PFloat.neg]
    rw [h1]
    rcases eq_or_ne f 0 with rfl | hf0
    · simp [PFloat.div, PFloat.abs, PFloat.isFinite]
    · have hne : (-f : ℚ) ≠ 0 := neg_ne_zero.mpr hf0
      by_cases hlt : (-f : ℚ) < 0
      · simp [PFloat.div, PFloat.abs, PFloat.isFinite, hne, hlt]
      · simp [PFloat.div, PFloat.abs, PFloat.isFinite, hne, hlt]

/-- Counterexample to C7 as stated: a zero in-sample actual against a
differing fitted value makes the MAPE positive infinity — not an explicit
NaN and not a signaled error (the call still succeeds and stores the
results dictionary), so the zero-denominator case is not surfaced in either
of the two claimed forms. -/
theorem claim_C7_counterex :
    mape_np [0, 1] [2, 1] = PFloat.inf ∧
    (arima_fit_forecast envW engZ dfZero (1, 1, 1) 2 95 none).1.map AResults.mape =
      some PFloat.inf ∧
    PFloat.inf ≠ PFloat.nan := by
  refine ⟨?_, ?_, by decide⟩
  · norm_num [mape_np, npMean, PFloat.div, PFloat.sub, PFloat.add, PFloat.neg, PFloat.abs,
      PFloat.mul]
  · norm_num [arima_fit_forecast, arima_fit_forecast_run, engZ, envW, dfZero,
      mean_squared_error, mean_absolute_error, arima_forecast_index, build_forecast_df,
      mape_np, npMean, PFloat.div, PFloat.sub, PFloat.add, PFloat.neg, PFloat.abs,
      PFloat.mul]

/-- Witness for the amended C7 at a concrete input with a zero actual. -/
theorem claim_C7_witness :
    (0 : ℚ) ∈ [(0 : ℚ), 1] ∧ (mape_np [0, 1] [2, 1]).isFinite = false :=
  ⟨by simp, claim_C7_amended [0, 1] [2, 1] rfl (by simp)⟩

/-- C8 (amended): when the Ljung-Box computation fails on the stored
residuals, the SARIMA get_residual_analysis returns the diagnostics bundle
with the sentinel statistic 0 and p-value 1 and never raises, but the ARIMA
get_residual_analysis — which has no try/except around the call —
propagates the failure instead of returning the sentinel bundle. -/
theorem claim_C8_amended (env : NumEnv) (r : SResults) (ra : AResults)
    (hfs : env.ljungbox r.residuals = none) (hfa : env.ljungbox ra.residuals = none) :
    sarima_get_residual_analysis env (some r) =
      PyOpt.val (some { residuals_mean := env.meanQ r.residuals,
                        residuals_std := env.stdQ r.residuals,
                        ljung_box_stat := 0, ljung_box_pvalue := 1,
                        residuals_autocorr := env.autocorrQ r.residuals 1 }) ∧
    arima_get_residual_analysis env (some ra) = PyOpt.raised := by
  constructor
  · simp [sarima_get_residual_analysis, hfs]
  · simp [arima_get_residual_analysis, hfa]

/-- Counterexample to C8 as stated: with a Ljung-Box oracle that raises,
the ARIMA residual analysis raises rather than returning the sentinel
bundle, so the claim fails on the ARIMA forecaster it names. -/
theorem claim_C8_counterex :
    arima_get_residual_analysis envW (some resW) = PyOpt.raised := rfl

/-- Witness for the amended C8: the concrete always-raising Ljung-Box
oracle, a stored SARIMA result getting the sentinel bundle, and a stored
ARIMA result propagating the failure. -/
theorem claim_C8_witness :
    sarima_get_residual_analysis envW (some resSW) =
      PyOpt.val (some { residuals_mean := envW.meanQ resSW.residuals,
                        residuals_std := envW.stdQ resSW.residuals,
                        ljung_box_stat := 0, ljung_box_pvalue := 1,
                        residuals_autocorr := envW.autocorrQ resSW.residuals 1 }) ∧
    arima_get_residual_analysis envW (some resW) = PyOpt.raised :=
  claim_C8_amended envW resSW resW rfl rfl

/-- C9: with a fixed (deterministic) engine and environment, the value
returned by auto_fit_forecast does not depend on the state stored in the
forecaster object, so two calls with the same series and bounds — the
second starting from the state left by the first — return identical
results dictionaries (hence the same chosen order and numerically identical
RMSE, MAE, MAPE, AIC and BIC), for the ARIMA and SARIMA forecasters alike. -/
theorem claim_C9 (env : NumEnv) (eng : Engine) (df : DataFrame)
    (forecast_periods confidence_level max_p max_q max_P max_Q : ℕ)
    (st1 st2 : Option AResults) (sst1 sst2 : Option SResults) :
    ((arima_auto_fit_forecast env eng df forecast_periods confidence_level max_p max_q
        st1).1 =
      (arima_auto_fit_forecast env eng df forecast_periods confidence_level max_p max_q
        st2).1) ∧
    ((arima_auto_fit_forecast env eng df forecast_periods confidence_level max_p max_q
        ((arima_auto_fit_forecast env eng df forecast_periods confidence_level max_p max_q
          st1).2)).1 =
      (arima_auto_fit_forecast env eng df forecast_periods confidence_level max_p max_q
        st1).1) ∧
    ((sarima_auto_fit_forecast env eng df forecast_periods confidence_level max_p max_q
        max_P max_Q sst1).1 =
      (sarima_auto_fit_forecast env eng df forecast_periods confidence_level max_p max_q
        max_P max_Q sst2).1) ∧
    ((sarima_auto_fit_forecast env eng df forecast_periods confidence_level max_p max_q
        max_P max_Q
        ((sarima_auto_fit_forecast env eng df forecast_periods confidence_level max_p max_q
          max_P max_Q sst1).2)).1 =
      (sarima_auto_fit_forecast env eng df forecast_periods confidence_level max_p max_q
        max_P max_Q sst1).1) := by
  refine ⟨?_, ?_, ?_, ?_⟩ <;>
    simp [arima_auto_fit_forecast, sarima_auto_fit_forecast, arima_fit_forecast_fst,
      sarima_fit_forecast_fst]

/-- C10: a failed fit_forecast returns None while leaving the stored
results field unchanged, so a later get_model_diagnostics (and
get_residual_analysis) call still reports the diagnostics of the earlier
successful fit rather than None or an error. -/
theorem claim_C10 (env : NumEnv) (eng : Engine) (df : DataFrame) (order : ℕ × ℕ × ℕ)
    (seasonal_order : ℕ × ℕ × ℕ × ℕ) (forecast_periods confidence_level : ℕ)
    (R : AResults) (RS : SResults)
    (hfail : (arima_fit_forecast env eng df order forecast_periods confidence_level
      (some R)).1 = none)
    (hsfail : (sarima_fit_forecast env eng df order seasonal_order forecast_periods
      confidence_level (some RS)).1 = none) :
    (arima_fit_forecast env eng df order forecast_periods confidence_level (some R)).2 =
      some R ∧
    arima_get_model_diagnostics env
        (arima_fit_forecast env eng df order forecast_periods confidence_level (some R)).2 =
      some { aic := R.aic, bic := R.bic, order := R.order, log_likelihood := R.model.llf,
             residuals_mean := env.meanQ R.residuals,
             residuals_std := env.stdQ R.residuals } ∧
    arima_get_residual_analysis env
        (arima_fit_forecast env eng df order forecast_periods confidence_level (some R)).2 =
      arima_get_residual_analysis env (some R) ∧
    (sarima_fit_forecast env eng df order seasonal_order forecast_periods confidence_level
      (some RS)).2 = some RS := by
  have h2 : (arima_fit_forecast env eng df order forecast_periods confidence_level
      (some R)).2 = some R := by
    unfold arima_fit_forecast at hfail ⊢
    cases hrun : arima_fit_forecast_run env eng df order forecast_periods with
    | some r => rw [hrun] at hfail; simp at hfail
    | none => rfl
  have hs2 : (sarima_fit_forecast env eng df order seasonal_order forecast_periods
      confidence_level (some RS)).2 = some RS := by
    unfold sarima_fit_forecast at hsfail ⊢
    cases hrun : sarima_fit_forecast_run env eng df order seasonal_order forecast_periods with
    | some r => rw [hrun] at hsfail; simp at hsfail
    | none => rfl
  exact ⟨h2, by rw [h2]; rfl, by rw [h2], hs2⟩

/-- Witness for C10: with the always-failing engine, a failed call leaves
the stored results of both forecasters at their earlier successful values. -/
theorem claim_C10_witness :
    (arima_fit_forecast envW engFail dfW (1, 1, 1) 2 95 (some resW)).2 = some resW ∧
    (sarima_fit_forecast envW engFail dfW (1, 1, 1) (0, 0, 0, 12) 2 95 (some resSW)).2 =
      some resSW :=
  ⟨(claim_C10 envW engFail dfW (1, 1, 1) (0, 0, 0, 12) 2 95 resW resSW rfl rfl).1,
   (claim_C10 envW engFail dfW (1, 1, 1) (0, 0, 0, 12) 2 95 resW resSW rfl rfl).2.2.2⟩
